import Mathlib

/-!
Verification of the Search Orchestration component of the
rag-based-real-estate-assistant frontend.

The core under study is `searchProperties` and `handleSearch` in
`src/frontend/src/PropertySearch.jsx`, plus the landing-page guard
`handleSearch` in `src/frontend/src/AIHomeSearch.jsx`.

The component state is the four React state cells declared at the top of
`PropertySearch` (`properties`, `loading`, `error`, `aiResponse`) together
with the controlled input `searchQuery`.  `searchProperties` is an async
function; we embed it as a synchronous prefix (`searchStart`: the code up
to and including issuing the fetch) and a continuation (`searchResolve`:
everything that runs once the awaited fetch/JSON decoding resolves, with
the `finally` clause folded in).  The continuation closes over no
attempt-identifying data, so which in-flight attempt a resolution belongs
to does not influence the state update it performs — the embedding's
`Event.resolve` therefore carries only the fetch outcome.
-/

/-- A property record as consumed by the render code of
`PropertySearch.jsx` (fields `property_id`, `price`, `bedrooms`,
`bathrooms`, `floor_area`, `property_type`, `street_address`, `suburb`,
`state`, `postcode`, `images`, `amenities`).  JavaScript objects may lack
any of these fields, so every field is optional; the component applies no
per-record validation or normalization. -/
structure PropertyRecord where
  property_id : Option String
  price : Option Int
  bedrooms : Option Int
  bathrooms : Option Int
  floor_area : Option Int
  property_type : Option String
  street_address : Option String
  suburb : Option String
  state : Option String
  postcode : Option String
  images : Option String
  amenities : Option (List String)
deriving Repr, DecidableEq

/-- The decoded JSON body of a well-formed response from
`POST /api/query`: a `success` boolean, an optional `response` answer
string and an optional `properties` list (absent fields modelled as
`none`). -/
structure ApiResponse where
  success : Bool
  response : Option String
  properties : Option (List PropertyRecord)
deriving Repr, DecidableEq

/-- The request body `JSON.stringify({ query: query, top_k: 5 })` sent by
`searchProperties`. -/
structure SearchRequest where
  query : String
  top_k : Nat
deriving Repr, DecidableEq

/-- The observable state of the `PropertySearch` component: the React
state cells `searchQuery`, `properties`, `loading`, `error`, `aiResponse`
(`PropertySearch.jsx` lines 8-12). -/
structure CompState where
  searchQuery : String
  properties : List PropertyRecord
  loading : Bool
  error : Option String
  aiResponse : String
deriving Repr, DecidableEq

/-- Initial component state: `useState` initializers — `searchQuery` from
the `q` URL parameter (empty when absent), `properties = []`,
`loading = false`, `error = null`, `aiResponse = ''`. -/
def initialState (q : String) : CompState :=
  { searchQuery := q, properties := [], loading := false,
    error := none, aiResponse := "" }

/-- Synchronous prefix of `searchProperties(query)`:
`setLoading(true); setError(null);` and the fetch it issues with body
`{ query: query, top_k: 5 }`.  Returns the state after the synchronous
part together with the issued request. -/
def searchStart (s : CompState) (query : String) : CompState × SearchRequest :=
  ({ s with loading := true, error := none },
   { query := query, top_k := 5 })

/-- Outcome of the awaited `fetch` + `response.json()`: either a decoded
`ApiResponse`, or any transport/decoding throw (connection refused,
non-decodable body, ...) which lands in the `catch` clause. -/
inductive FetchOutcome where
  | ok (data : ApiResponse)
  | connectionError
deriving Repr, DecidableEq

/-- Continuation of `searchProperties` once its fetch resolves
(`PropertySearch.jsx` lines 35-46).  On `data.success`:
`setProperties(data.properties || []); setAiResponse(data.response || '')`.
Otherwise `setError('Failed to fetch properties')`.  A throw is caught and
yields `setError('Error connecting to the server')`.  The `finally` clause
`setLoading(false)` runs on every path.  (In JavaScript, `data.response ||
''` maps a missing answer to `''` and `data.properties || []` maps a
missing list to `[]`, which `Option.getD` mirrors.) -/
def searchResolve (s : CompState) (o : FetchOutcome) : CompState :=
  match o with
  | .ok data =>
      if data.success then
        { s with properties := data.properties.getD [],
                 aiResponse := data.response.getD "",
                 loading := false }
      else
        { s with error := some "Failed to fetch properties",
                 loading := false }
  | .connectionError =>
      { s with error := some "Error connecting to the server",
               loading := false }

/-- `handleSearch` of `PropertySearch.jsx` (lines 49-55): on submit,
`if (searchQuery) { searchProperties(searchQuery); navigate(...) }`.
JavaScript string truthiness makes the guard "searchQuery is not the
empty string" — note: NOT trimmed.  Returns the state after the
synchronous part of the triggered call together with the list of remote
requests issued (empty when the guard rejects). -/
def handleSearch (s : CompState) : CompState × List SearchRequest :=
  if s.searchQuery = "" then (s, [])
  else
    ((searchStart s s.searchQuery).1, [(searchStart s s.searchQuery).2])

/-- JavaScript `String.prototype.trim()`: strip leading and trailing
whitespace.  (Lean's library trim is defined through substring auxiliaries
that the kernel cannot evaluate, so the embedding spells the same
function out on the character list.) -/
def jsTrim (s : String) : String :=
  String.mk (List.reverse (List.dropWhile Char.isWhitespace
    (List.reverse (List.dropWhile Char.isWhitespace s.data))))

/-- `handleSearch` of `AIHomeSearch.jsx` (lines 9-14): navigates to the
search page only when `searchQuery.trim()` is truthy, i.e. the trimmed
query is non-empty.  Returns whether navigation (and hence a subsequent
search on the target page) happens. -/
def homeHandleSearch (q : String) : Bool :=
  jsTrim q ≠ ""

/-- An event in the life of the component: the synchronous start of a
`searchProperties(q)` invocation, or the resolution of some in-flight
fetch with outcome `o`.  The continuation in the source closes over no
attempt identity, so the state update of a resolution is independent of
which attempt it belongs to. -/
inductive Event where
  | start (q : String)
  | resolve (o : FetchOutcome)
deriving Repr, DecidableEq

/-- One event's effect on the component state. -/
def step (s : CompState) : Event → CompState
  | .start q => (searchStart s q).1
  | .resolve o => searchResolve s o

/-- Remote requests issued by one event: a start issues exactly the one
fetch with body `{ query, top_k: 5 }`; a resolution issues none (the
source has no retry logic on any branch). -/
def stepRequests : Event → List SearchRequest
  | .start q => [{ query := q, top_k := 5 }]
  | .resolve _ => []

/-- Run a sequence of events from a state. -/
def run (s : CompState) : List Event → CompState
  | [] => s
  | e :: es => run (step s e) es

/-- The lifecycle phase as the render code derives it
(`PropertySearch.jsx` lines 107-111): `loading ? <Loading> : error ?
<Error> : <content>`.  The content branch covers both the idle and the
success appearance — the source does not distinguish them. -/
inductive Phase where
  | Loading
  | ErrorPhase
  | Content
deriving Repr, DecidableEq

/-- Derive the phase from the state exactly as the render's conditional
chain does. -/
def derivedPhase (s : CompState) : Phase :=
  if s.loading then .Loading
  else if s.error.isSome then .ErrorPhase
  else .Content

/-- Sample fully-populated property record used in concrete scenarios. -/
def sampleRecord : PropertyRecord :=
  { property_id := some "prop-1", price := some 750000, bedrooms := some 3,
    bathrooms := some 2, floor_area := some 140,
    property_type := some "House", street_address := some "1 Apple St",
    suburb := some "Carlton", state := some "VIC",
    postcode := some "3053", images := none,
    amenities := some ["pool"] }

/-- A second sample record, distinct from `sampleRecord`. -/
def sampleRecord2 : PropertyRecord :=
  { property_id := some "prop-2", price := some 420000, bedrooms := some 2,
    bathrooms := some 1, floor_area := some 85,
    property_type := some "Unit", street_address := some "9 Pear Ave",
    suburb := some "Newtown", state := some "NSW",
    postcode := some "2042", images := none, amenities := none }

/-- Successful payload for the first query of the overlap scenario. -/
def firstPayload : ApiResponse :=
  { success := true, response := some "answer for the first query",
    properties := some [sampleRecord] }

/-- Successful payload for the second query of the overlap scenario. -/
def secondPayload : ApiResponse :=
  { success := true, response := some "answer for the second query",
    properties := some [sampleRecord2] }

/-!  Helper lemmas shared by the claim theorems.  -/

/-- Every branch of the fetch continuation ends with `setLoading(false)`
(the `finally` clause), so the state after any resolution has
`loading = false`. -/
theorem searchResolve_loading (s : CompState) (o : FetchOutcome) :
    (searchResolve s o).loading = false := by
  cases o with
  | ok data => cases hsucc : data.success <;> simp [searchResolve, hsucc]
  | connectionError => rfl

/-- The property "while loading, no error is stored" is preserved by every
event, hence holds in every reachable state: a start clears the error and
a resolution clears the loading flag. -/
theorem run_loading_no_error (es : List Event) :
    ∀ s : CompState, (s.loading = true → s.error = none) →
      ((run s es).loading = true → (run s es).error = none) := by
  induction es with
  | nil => intro s h; exact h
  | cons e es ih =>
    intro s h
    apply ih
    cases e with
    | start q => intro _; rfl
    | resolve o =>
      intro hl
      rw [show step s (.resolve o) = searchResolve s o from rfl,
        searchResolve_loading] at hl
      cases hl

/-- A property record carrying no identifier but an otherwise valid
price field. -/
def recordNoId : PropertyRecord :=
  { property_id := none, price := some 1, bedrooms := none,
    bathrooms := none, floor_area := none, property_type := none,
    street_address := none, suburb := none, state := none,
    postcode := none, images := none, amenities := none }

/-- Claim C1: overlap scenario — submit a first query, submit a second
query before the first resolves, then let the SECOND query's fetch
resolve first and the FIRST query's fetch resolve last.  The code applies
whichever outcome resolves last (it has no staleness guard), so the final
state holds the first query's answer and records, not the second's —
contrary to the claim that only the most recently initiated attempt may
mutate the state. -/
theorem C1_stale_outcome_mutates_state :
    run (initialState "")
        [Event.start "first query", Event.start "second query",
         Event.resolve (.ok secondPayload), Event.resolve (.ok firstPayload)]
      = { searchQuery := "", properties := [sampleRecord], loading := false,
          error := none, aiResponse := "answer for the first query" }
    ∧ (run (initialState "")
        [Event.start "first query", Event.start "second query",
         Event.resolve (.ok secondPayload),
         Event.resolve (.ok firstPayload)]).aiResponse
      ≠ secondPayload.response.getD "" := by
  exact ⟨rfl, by decide⟩

/-- Claim C2 amended: in every state reachable from the initial state, an
error reason is present exactly when the render derives the Error phase;
the original claim's other half — result presence equivalent to the
Success phase, with the failure transition clearing the result — fails on
the code (see the counterexample), because no failure path clears the
previously stored records or answer. -/
theorem C2_error_iff_error_phase (q : String) (es : List Event) :
    (run (initialState q) es).error.isSome = true ↔
      derivedPhase (run (initialState q) es) = .ErrorPhase := by
  have hinv := run_loading_no_error es (initialState q) (fun _ => rfl)
  constructor
  · intro he
    have hl : (run (initialState q) es).loading = false := by
      cases hl : (run (initialState q) es).loading
      · rfl
      · rw [hinv hl] at he; cases he
    simp [derivedPhase, hl, he]
  · intro hp
    cases he : (run (initialState q) es).error.isSome
    · exfalso
      cases hl : (run (initialState q) es).loading <;>
        simp [derivedPhase, hl, he] at hp
    · rfl

/-- Claim C2 counterexample: after a successful search stores a record, a
subsequent failed search reaches the Error phase while the stored records
are still present — result presence is not equivalent to the Success
phase, and the failure transition does not clear the result. -/
theorem C2_result_present_in_error_phase :
    derivedPhase (run (initialState "")
        [Event.start "homes in Carlton", Event.resolve (.ok firstPayload),
         Event.start "homes in Newtown",
         Event.resolve (.ok { success := false, response := none,
                              properties := none })])
      = .ErrorPhase
    ∧ (run (initialState "")
        [Event.start "homes in Carlton", Event.resolve (.ok firstPayload),
         Event.start "homes in Newtown",
         Event.resolve (.ok { success := false, response := none,
                              properties := none })]).properties
      = [sampleRecord] := by
  exact ⟨rfl, rfl⟩

/-- Claim C3 counterexample: the whitespace-only query `" "` trims to the
empty string, yet the submit guard `if (searchQuery)` tests only string
truthiness, so submitting it changes the state (loading becomes true) and
issues a remote call. -/
theorem C3_whitespace_query_triggers_search :
    jsTrim " " = ""
    ∧ (handleSearch (initialState " ")).1 ≠ initialState " "
    ∧ (handleSearch (initialState " ")).2 = [{ query := " ", top_k := 5 }] := by
  refine ⟨by decide, by decide, rfl⟩

/-- Claim C3 amended: submission on the search page is a no-op exactly
for the empty query string — the guard rejects, the state is unchanged
and no remote call is issued; the landing-page form, by contrast, blocks
every query whose trimmed form is empty. -/
theorem C3_empty_query_noop (s : CompState) (q : String)
    (hs : s.searchQuery = "") (hq : jsTrim q = "") :
    handleSearch s = (s, []) ∧ homeHandleSearch q = false := by
  constructor
  · simp [handleSearch, hs]
  · simp [homeHandleSearch, hq]

/-- Witness for C3: the concrete empty query is a no-op and the concrete
whitespace-only landing-page query does not navigate. -/
theorem C3_empty_query_noop_witness :
    handleSearch (initialState "") = (initialState "", [])
    ∧ homeHandleSearch " " = false :=
  C3_empty_query_noop (initialState "") " " rfl (by decide)

/-- Claim C4: for any well-formed response whose success indicator is
true, resolving a started search yields the success appearance: loading
off, no error, the answer string stored (an absent answer normalizes to
`""`), and the property list stored in order (an absent list normalizes
to `[]`). -/
theorem C4_success_response_state (s : CompState) (q : String)
    (r : Option String) (p : Option (List PropertyRecord)) :
    searchResolve ((searchStart s q).1)
        (.ok { success := true, response := r, properties := p })
      = { s with loading := false, error := none,
                 properties := p.getD [], aiResponse := r.getD "" }
    ∧ derivedPhase (searchResolve ((searchStart s q).1)
        (.ok { success := true, response := r, properties := p }))
      = .Content := by
  exact ⟨rfl, rfl⟩

/-- Claim C5 counterexample: the reason stored for a service-reported
failure is the source literal `Failed to fetch properties`, not the
string `request failed` that the claim names. -/
theorem C5_failure_reason_literal :
    (searchResolve (initialState "")
        (.ok { success := false, response := none,
               properties := none })).error
      = some "Failed to fetch properties"
    ∧ (searchResolve (initialState "")
        (.ok { success := false, response := none,
               properties := none })).error
      ≠ some "request failed" := by
  exact ⟨rfl, by decide⟩

/-- Claim C5 amended: for any well-formed response whose success
indicator is false, resolving a started search yields the Error phase
with reason `Failed to fetch properties` (the code's literal for this
failure class) and leaves every other field unchanged; no resolution
issues a further remote call, so there is no automatic retry. -/
theorem C5_service_failure_state (s : CompState) (q : String)
    (r : Option String) (p : Option (List PropertyRecord)) :
    searchResolve ((searchStart s q).1)
        (.ok { success := false, response := r, properties := p })
      = { s with loading := false,
                 error := some "Failed to fetch properties" }
    ∧ derivedPhase (searchResolve ((searchStart s q).1)
        (.ok { success := false, response := r, properties := p }))
      = .ErrorPhase
    ∧ ∀ o : FetchOutcome, stepRequests (.resolve o) = [] := by
  exact ⟨rfl, rfl, fun _ => rfl⟩

/-- Claim C6 counterexample: the reason stored for a transport failure is
the source literal `Error connecting to the server`, not the string
`connection error` that the claim names. -/
theorem C6_connection_reason_literal :
    (searchResolve (initialState "") .connectionError).error
      = some "Error connecting to the server"
    ∧ (searchResolve (initialState "") .connectionError).error
      ≠ some "connection error" := by
  exact ⟨rfl, by decide⟩

/-- Claim C6 amended: any transport failure (the catch clause: connection
refused, non-decodable body, timeout) yields the Error phase with reason
`Error connecting to the server`, which is distinct from the reason
stored for a service-reported failure. -/
theorem C6_transport_failure_state (s : CompState) (q : String) :
    searchResolve ((searchStart s q).1) .connectionError
      = { s with loading := false,
                 error := some "Error connecting to the server" }
    ∧ derivedPhase (searchResolve ((searchStart s q).1) .connectionError)
      = .ErrorPhase
    ∧ ("Error connecting to the server" : String)
      ≠ "Failed to fetch properties" := by
  exact ⟨rfl, rfl, by decide⟩

/-- Claim C7 counterexample: a successful response containing a record
with no identifier is stored as-is — the identifier-less record appears
in the resulting record list, so not every stored record carries an
identifier. -/
theorem C7_identifierless_record_kept :
    (searchResolve (initialState "")
        (.ok { success := true, response := none,
               properties := some [recordNoId] })).properties
      = [recordNoId]
    ∧ recordNoId.property_id = none
    ∧ ((searchResolve (initialState "")
        (.ok { success := true, response := none,
               properties := some [recordNoId] })).properties.all
          fun rec => rec.property_id.isSome)
      = false := by
  exact ⟨rfl, rfl, rfl⟩

/-- Claim C7 amended: the code performs no per-record validation or
normalization — on a successful response the property list is stored
verbatim (an absent list normalizes to `[]`), so identifier-less records
are kept rather than excluded and identifier uniqueness is not enforced;
records missing other fields are likewise kept unchanged without failing
the search. -/
theorem C7_records_stored_verbatim (s : CompState)
    (r : Option String) (p : Option (List PropertyRecord)) :
    (searchResolve s
        (.ok { success := true, response := r,
               properties := p })).properties
      = p.getD [] := rfl

/-- Claim C8: for a query that is non-empty after trimming, submission
synchronously sets the loading flag and clears the error (before any
resolution event), and issues exactly one remote call whose payload
carries the query string and the positive result-count hint
`top_k = 5`. -/
theorem C8_nonempty_submit_loading (s : CompState)
    (h : jsTrim s.searchQuery ≠ "") :
    handleSearch s
      = ({ s with loading := true, error := none },
         [{ query := s.searchQuery, top_k := 5 }])
    ∧ (handleSearch s).1.loading = true
    ∧ 0 < ({ query := s.searchQuery, top_k := 5 } : SearchRequest).top_k := by
  have hne : s.searchQuery ≠ "" := by
    intro he
    apply h
    rw [he]
    rfl
  have h1 : handleSearch s
      = ({ s with loading := true, error := none },
         [{ query := s.searchQuery, top_k := 5 }]) := by
    simp [handleSearch, hne, searchStart]
  exact ⟨h1, by rw [h1], by show (0 : Nat) < 5; decide⟩

/-- Witness for C8: a concrete non-blank query synchronously enters the
loading state and issues the one request. -/
theorem C8_nonempty_submit_loading_witness :
    handleSearch (initialState "homes near parks")
      = ({ initialState "homes near parks" with
           loading := true, error := none },
         [{ query := "homes near parks", top_k := 5 }])
    ∧ (handleSearch (initialState "homes near parks")).1.loading = true
    ∧ 0 < ({ query := "homes near parks", top_k := 5 } : SearchRequest).top_k :=
  C8_nonempty_submit_loading (initialState "homes near parks") (by decide)

/-- Claim C9: the fetch continuation is a total function into component
states — every outcome (decoded response with success true or false, or a
transport/decoding throw caught by the catch clause) produces a state,
and on every such path the finally clause has cleared the loading flag,
so the phase is never Loading once the invocation's call has resolved. -/
theorem C9_resolve_total_never_loading (s : CompState) (o : FetchOutcome) :
    (searchResolve s o).loading = false
    ∧ derivedPhase (searchResolve s o) ≠ .Loading := by
  have hl := searchResolve_loading s o
  refine ⟨hl, ?_⟩
  cases he : (searchResolve s o).error.isSome <;>
    simp [derivedPhase, hl, he]

/-- Claim C10: both failure paths mutate only the error and loading
fields — the previously stored record list, answer text and query text
all survive a failed search unchanged. -/
theorem C10_failure_preserves_results (s : CompState)
    (r : Option String) (p : Option (List PropertyRecord)) :
    searchResolve s
        (.ok { success := false, response := r, properties := p })
      = { s with loading := false,
                 error := some "Failed to fetch properties" }
    ∧ searchResolve s .connectionError
      = { s with loading := false,
                 error := some "Error connecting to the server" } := by
  exact ⟨rfl, rfl⟩
